import Mathlib

/-!
Verification of the metadata-generator repository's orchestration spec
against its source.  The frontend (MetadataGenerator.Web, TypeScript) is
embedded shallowly from the source files.  The backend orchestration
components (AnalysisClient, BatchDispatcher, CallbackDelivery) are not
present in the source tree — only their documentation and the frontend
caller are — so they are modelled from the spec where a claim depends on
them; each such definition is marked `Modelled from the spec`.
-/

/- ===================================================================
   Data model, from src/MetadataGenerator.Web/src/lib/types.ts
   =================================================================== -/

/-- From types.ts: `ApiError` — `{error_code, message}` (optional `detail` omitted;
no claim inspects it). -/
structure ApiError where
  error_code : String
  message : String
deriving DecidableEq, Repr

/-- From types.ts: `ApiResult<T> = { ok: true; data: T } | { ok: false; error: ApiError }`. -/
inductive ApiResult (T : Type) where
  | ok (data : T)
  | err (error : ApiError)
deriving DecidableEq, Repr

/-- From types.ts: the `'success' | 'error'` status of a per-file batch result. -/
inductive FileStatus where
  | success
  | error
deriving DecidableEq, Repr

/-- From types.ts: the `'image' | 'audio' | 'unknown'` file type. -/
inductive FileType where
  | image
  | audio
  | unknown
deriving DecidableEq, Repr

/-- From types.ts: `FileProcessingStatus = 'pending' | 'processing' | 'success' | 'error'`. -/
inductive FileProcessingStatus where
  | pending
  | processing
  | success
  | error
deriving DecidableEq, Repr

/-- From types.ts: `ImageMetadataResponse | AudioMetadataResponse`.  The claims
only compare metadata values and read `processing_time_ms`, so the display-only
fields (file name/size, MIME, EXIF record, duration) are abstracted away and the
AI-generated core plus `processing_time_ms` kept. -/
inductive MetadataResponse where
  | image (description : String) (keywords : List String) (caption : String)
      (processing_time_ms : Nat)
  | audio (description : String) (keywords : List String) (summary : String)
      (processing_time_ms : Nat)
deriving DecidableEq, Repr

/-- The `processing_time_ms` field of either metadata variant. -/
def MetadataResponse.processingTime : MetadataResponse → Nat
  | .image _ _ _ t => t
  | .audio _ _ _ t => t

/-- From types.ts: `BatchErrorDetail` — `{detail, error_code}`. -/
structure BatchErrorDetail where
  detail : String
  error_code : String
deriving DecidableEq, Repr

/-- From types.ts: `FileAnalysisResult` — per-file result within a batch response. -/
structure FileAnalysisResult where
  file_name : String
  file_index : Nat
  status : FileStatus
  file_type : FileType
  metadata : Option MetadataResponse
  error : Option BatchErrorDetail
deriving DecidableEq, Repr

/-- From types.ts: `BatchAnalysisResponse` — top-level batch response. -/
structure BatchAnalysisResponse where
  results : List FileAnalysisResult
  total_files : Nat
  successful : Nat
  failed : Nat
  total_processing_time_ms : Nat
deriving DecidableEq, Repr

/-- From types.ts: `ProcessingFile` — tracks a file through its processing
lifecycle. -/
structure ProcessingFile where
  id : String
  fileName : String
  fileType : FileType
  fileSize : Nat
  status : FileProcessingStatus
  metadata : Option MetadataResponse
  error : Option String
  processingTimeMs : Option Nat
  fileIndex : Nat
  thumbnailUrl : Option String
deriving DecidableEq, Repr

/- ===================================================================
   FileUpload, from src/MetadataGenerator.Web/src/components/FileUpload.tsx
   =================================================================== -/

/-- From FileUpload.tsx: `MAX_FILES = 20`. -/
def MAX_FILES : Nat := 20

/-- From FileUpload.tsx: `MAX_IMAGE_SIZE_BYTES = 10 * 1024 * 1024`. -/
def MAX_IMAGE_SIZE_BYTES : Nat := 10 * 1024 * 1024

/-- From FileUpload.tsx: the `ACCEPTED_TYPES` set (only membership is used). -/
def ACCEPTED_TYPES : List String :=
  ["image/jpeg", "image/png", "image/tiff", "image/webp",
   "audio/mpeg", "audio/wav", "audio/x-wav", "audio/mp4", "audio/x-m4a", "audio/ogg"]

/-- From FileUpload.tsx: the `IMAGE_TYPES` set. -/
def IMAGE_TYPES : List String :=
  ["image/jpeg", "image/png", "image/tiff", "image/webp"]

/-- The parts of a DOM `File` the component reads: `name`, `type` (MIME),
`size` (bytes). -/
structure WebFile where
  name : String
  type : String
  size : Nat
deriving DecidableEq, Repr

/-- Which branch of `validateFile` produced the error.  The source returns a
German message string built with `formatSize` (decimal display formatting); the
message text is abstracted to the error case carrying the same data. -/
inductive ValidationError where
  | unsupportedType (mime : String)
  | fileTooLarge (size : Nat)
deriving DecidableEq, Repr

/-- From FileUpload.tsx lines 76-84: reject a MIME type outside `ACCEPTED_TYPES`;
reject an image (member of `IMAGE_TYPES`) larger than `MAX_IMAGE_SIZE_BYTES`;
accept otherwise. -/
def validateFile (file : WebFile) : Option ValidationError :=
  if ¬ (ACCEPTED_TYPES.contains file.type = true) then
    some (.unsupportedType file.type)
  else if IMAGE_TYPES.contains file.type = true ∧ MAX_IMAGE_SIZE_BYTES < file.size then
    some (.fileTooLarge file.size)
  else
    none

/-- From FileUpload.tsx: `SelectedFile` — `{id, file, error}`. -/
structure SelectedFile where
  id : String
  file : WebFile
  error : Option ValidationError
deriving DecidableEq, Repr

/-- From FileUpload.tsx lines 99-116: the pure state update performed by
`addFiles`.  `counter` models the module-level `_fileCounter` (pre-incremented
per new entry); the returned pair is (new `files` state, new `countError`
state).  When `prev.length + incoming.length > MAX_FILES` the previous
selection is returned unchanged together with the count-error message;
otherwise the validated new entries are appended and the count error cleared. -/
def addFiles (counter : Nat) (prev : List SelectedFile) (incoming : List WebFile) :
    List SelectedFile × Option String :=
  let total := prev.length + incoming.length
  if MAX_FILES < total then
    (prev, some ("Maximal " ++ toString MAX_FILES ++ " Dateien erlaubt. Sie haben "
      ++ toString total ++ " ausgewählt."))
  else
    (prev ++ incoming.enum.map (fun p =>
      { id := "file-" ++ toString (counter + p.1 + 1)
        file := p.2
        error := validateFile p.2 }), none)

/-- From FileUpload.tsx line 153: `validFiles = files.filter((f) => f.error === null)`. -/
def validFiles (files : List SelectedFile) : List SelectedFile :=
  files.filter (fun f => f.error.isNone)

/-- From FileUpload.tsx line 154: `canUpload = validFiles.length > 0 && !uploading`. -/
def canUpload (files : List SelectedFile) (uploading : Bool) : Bool :=
  decide (0 < (validFiles files).length) && !uploading

/-- From FileUpload.tsx lines 156-175: `handleUpload` returns early unless
`canUpload`; otherwise it submits exactly `validFiles` (appended to the form
data in order).  The returned value is the submitted batch, `none` when the
guard blocks. -/
def handleUpload (files : List SelectedFile) (uploading : Bool) :
    Option (List SelectedFile) :=
  if canUpload files uploading then some (validFiles files) else none

/- ===================================================================
   TileGrid, from src/MetadataGenerator.Web/src/components/TileGrid.tsx
   =================================================================== -/

/-- From TileGrid.tsx line 30:
`[...files].sort((a, b) => a.fileIndex - b.fileIndex)`.  JavaScript
`Array.prototype.sort` is required to be stable, as is insertion sort, so a
stable sort by the same key models it exactly. -/
def tileGridOrder (files : List ProcessingFile) : List ProcessingFile :=
  List.insertionSort (fun a b => a.fileIndex ≤ b.fileIndex) files

/- ===================================================================
   MetadataWorkspace, from
   src/MetadataGenerator.Web/src/components/MetadataWorkspace.tsx
   =================================================================== -/

/-- From MetadataWorkspace.tsx lines 87-112 (`handleResults`): the update applied
to one tracked file.  JS `Array.prototype.find` returns the first match, as does
`List.find?`.  A file with no matching result by `file_index` becomes an error
with the fixed message; a success result sets status/metadata/fileType and
copies `metadata?.processing_time_ms ?? null`; an error result sets status
error with `error?.detail ?? 'Verarbeitung fehlgeschlagen'`. -/
def handleResultsEntry (response : BatchAnalysisResponse) (pf : ProcessingFile) :
    ProcessingFile :=
  match response.results.find? (fun r => r.file_index == pf.fileIndex) with
  | none => { pf with status := .error, error := some "Kein Ergebnis erhalten" }
  | some result =>
    match result.status with
    | .success =>
      { pf with
        status := .success
        metadata := result.metadata
        fileType := result.file_type
        processingTimeMs := result.metadata.map MetadataResponse.processingTime }
    | .error =>
      { pf with
        status := .error
        error := some ((result.error.map BatchErrorDetail.detail).getD
          "Verarbeitung fehlgeschlagen")
        fileType := result.file_type }

/-- From MetadataWorkspace.tsx lines 87-112: `handleResults` maps the update over
the previous tracked files. -/
def handleResults (response : BatchAnalysisResponse) (prev : List ProcessingFile) :
    List ProcessingFile :=
  prev.map (handleResultsEntry response)

/- ===================================================================
   API client, from src/MetadataGenerator.Web/src/lib/api-client.ts
   =================================================================== -/

/-- A parsed HTTP response body, as the client can observe it:
`notJson m` models a body whose `response.json()` rejects with message `m`;
`structured e` a JSON object with both `error_code` and `message` keys (the
shape `parseError`'s `in`-checks recognize); `plain v` any other JSON value,
abstracted to a tag. -/
inductive ResponseBody where
  | notJson (parseErrMsg : String)
  | structured (e : ApiError)
  | plain (v : String)
deriving DecidableEq, Repr

/-- The parts of a fetch `Response` the client reads. -/
structure HttpResponse where
  status : Nat
  statusText : String
  body : ResponseBody
deriving DecidableEq, Repr

/-- From the WHATWG fetch standard: `Response.ok` is `status` in 200..299. -/
def respOk (r : HttpResponse) : Bool :=
  decide (200 ≤ r.status) && decide (r.status ≤ 299)

/-- A `fetch` outcome: the promise rejects (network failure; `message` is the
message the catch block computes from the thrown value) or resolves. -/
inductive FetchOutcome where
  | rejected (message : String)
  | response (r : HttpResponse)
deriving DecidableEq, Repr

/-- The JSON value returned on the success path; constructors mirror
`ResponseBody.structured`/`plain`. -/
inductive JsonData where
  | structuredError (e : ApiError)
  | other (v : String)
deriving DecidableEq, Repr

/-- From api-client.ts lines 25-39 (`parseError`): a structured
`{error_code, message}` JSON body is returned as-is; otherwise error code
`HTTP_<status>` with message `response.statusText || 'An unexpected error
occurred'`. -/
def parseError (r : HttpResponse) : ApiError :=
  match r.body with
  | .structured e => e
  | _ =>
    { error_code := "HTTP_" ++ toString r.status
      message := if r.statusText = "" then "An unexpected error occurred"
                 else r.statusText }

/-- From api-client.ts lines 48-76 (`request`): a rejected fetch — or a 2xx body
whose JSON parse throws — is caught and becomes a `NETWORK_ERROR` result; a
non-ok response becomes `parseError`'s error; an ok JSON response becomes
`ok data`.  `get`/`post`/`put`/`del` (lines 79-104) forward to `request` and
add only the method/body, which do not affect this result shape. -/
def request (outcome : FetchOutcome) : ApiResult JsonData :=
  match outcome with
  | .rejected m => .err { error_code := "NETWORK_ERROR", message := m }
  | .response r =>
    if respOk r then
      match r.body with
      | .notJson m => .err { error_code := "NETWORK_ERROR", message := m }
      | .structured e => .ok (.structuredError e)
      | .plain v => .ok (.other v)
    else
      .err (parseError r)

/-- From api-client.ts lines 111-136 (`uploadFile`): the source duplicates the
`request` control flow for multipart form data (no JSON content-type header);
headers and body do not affect the result shape. -/
def uploadFile (outcome : FetchOutcome) : ApiResult JsonData :=
  match outcome with
  | .rejected m => .err { error_code := "NETWORK_ERROR", message := m }
  | .response r =>
    if respOk r then
      match r.body with
      | .notJson m => .err { error_code := "NETWORK_ERROR", message := m }
      | .structured e => .ok (.structuredError e)
      | .plain v => .ok (.other v)
    else
      .err (parseError r)

/- ===================================================================
   CSV escaping, from src/MetadataGenerator.Web/src/components/ExportButtons.tsx
   =================================================================== -/

/-- The double-quote character, written via its code point. -/
def dquote : Char := Char.ofNat 34

/-- From ExportButtons.tsx line 42: the
`value.includes(',') || value.includes('"') || value.includes('\n') ||
value.includes('\r')` test, on the character list of the string. -/
def csvNeedsQuote (s : List Char) : Bool :=
  s.contains ',' || s.contains dquote || s.contains '\n' || s.contains '\r'

/-- From ExportButtons.tsx line 43: `value.replace(/"/g, '""')` — double every
double quote. -/
def csvDoubleQuotes : List Char → List Char
  | [] => []
  | c :: rest =>
    if c = dquote then dquote :: dquote :: csvDoubleQuotes rest
    else c :: csvDoubleQuotes rest

/-- From ExportButtons.tsx lines 41-46 (`csvEscape`): wrap in double quotes with
doubled interior quotes when a special character occurs, else return the value
unchanged. -/
def csvEscape (s : List Char) : List Char :=
  if csvNeedsQuote s then dquote :: csvDoubleQuotes s ++ [dquote] else s

/-- RFC 4180 unquoting (the decoding side of the round-trip): collapse each
doubled double quote to a single one. -/
def csvCollapseQuotes : List Char → List Char
  | [] => []
  | [c] => [c]
  | c1 :: c2 :: rest =>
    if c1 = dquote ∧ c2 = dquote then dquote :: csvCollapseQuotes rest
    else c1 :: csvCollapseQuotes (c2 :: rest)

/-- RFC 4180 decoding of one cell: a cell that starts and ends in a double quote
is read by stripping them and collapsing each doubled interior quote; any other
cell denotes itself. -/
def rfc4180DecodeCell (s : List Char) : List Char :=
  if 2 ≤ s.length ∧ s.head? = some dquote ∧ s.getLast? = some dquote then
    csvCollapseQuotes ((s.drop 1).dropLast)
  else s

/- ===================================================================
   Backend orchestration layer, modelled from the spec (the Python
   backend is absent from the source tree)
   =================================================================== -/

/-- Modelled from the spec (§3): the `image | audio` kind of a request.  The
backend component that declares it (AnalysisRequest construction) is missing
from the source tree. -/
inductive MediaKind where
  | image
  | audio
deriving DecidableEq, Repr

/-- Modelled from the spec (§3): `AnalysisRequest`
`{index, payload, declared_mime, kind}`; the backend defining it is missing
from the source tree.  `payload` bytes are modelled as a list of naturals. -/
structure AnalysisRequest where
  index : Nat
  payload : List Nat
  declared_mime : String
  kind : MediaKind
deriving DecidableEq, Repr

/-- Modelled from the spec (§3): `AnalysisResult` tagged variant; the backend
defining it is missing from the source tree. -/
inductive AnalysisResult where
  | image (description : String) (keywords : List String) (caption : String)
  | audio (description : String) (keywords : List String) (summary : String)
deriving DecidableEq, Repr

/-- Modelled from the spec (§3, §7): `AnalysisError` — one of Configuration,
Transient (exhausted), Fatal/ServiceError, Timeout; the backend defining it is
missing from the source tree. -/
inductive AnalysisError where
  | configuration (message : String)
  | transient (message : String)
  | serviceError (message : String)
  | timeout (message : String)
deriving DecidableEq, Repr

/-- Modelled from the spec (§3): backend `FileResult`
`{index, status, kind, result?, error?}`; the backend defining it is missing
from the source tree. -/
structure FileResult where
  index : Nat
  status : FileStatus
  kind : MediaKind
  result : Option AnalysisResult
  error : Option AnalysisError
deriving DecidableEq, Repr

/-- Modelled from the spec (§4.2): each `AnalysisClient` call is wrapped so any
exception becomes a status-error `FileResult` for that file alone; the
dispatcher code doing this is missing from the source tree. -/
def toFileResult (req : AnalysisRequest) (out : Except AnalysisError AnalysisResult) :
    FileResult :=
  match out with
  | .ok r =>
    { index := req.index
      status := .success
      kind := req.kind
      result := some r
      error := none }
  | .error e =>
    { index := req.index
      status := .error
      kind := req.kind
      result := none
      error := some e }

/-- Modelled from the spec (§3, §6): one file of a batch submission before the
dispatcher assigns its positional index. -/
structure AnalysisInput where
  payload : List Nat
  declared_mime : String
  kind : MediaKind
deriving DecidableEq, Repr

/-- Modelled from the spec (§3): the dispatcher creates one immutable
`AnalysisRequest` per input, indexed by position. -/
def mkRequests (inputs : List AnalysisInput) : List AnalysisRequest :=
  inputs.enum.map (fun p =>
    { index := p.1
      payload := p.2.payload
      declared_mime := p.2.declared_mime
      kind := p.2.kind })

/-- Modelled from the spec (§4.2): results are collected keyed by original
`index` and re-sorted into input order (stable sort by index). -/
def sortByIndex (rs : List FileResult) : List FileResult :=
  List.insertionSort (fun a b => a.index ≤ b.index) rs

/-- Modelled from the spec (§4.2, §7): the structural `BatchSizeError` for
`N == 0` or `N > 20` (surfaced as HTTP 422 by the route). -/
inductive BatchSizeError where
  | invalidSize (n : Nat)
deriving DecidableEq, Repr

/-- Modelled from the spec (§3): `BatchResponse`
`{results, total, successful, failed}`; `elapsed_ms` (wall-clock time) is not
modelled.  `successful`/`failed` are derived counts, never tracked
independently. -/
structure BatchResponse where
  results : List FileResult
  total : Nat
  successful : Nat
  failed : Nat
deriving DecidableEq, Repr

/-- Modelled from the spec (§4.2): the per-file outcomes of one dispatch, in
collected-then-re-sorted order.  `call` is the per-request `AnalysisClient`
collaborator; an `Except.error` models a raised exception, including retry
exhaustion. -/
def dispatchResults (call : AnalysisRequest → Except AnalysisError AnalysisResult)
    (inputs : List AnalysisInput) : List FileResult :=
  sortByIndex ((mkRequests inputs).map (fun req => toFileResult req (call req)))

/-- Count of status-success results. -/
def countSuccess (rs : List FileResult) : Nat :=
  (rs.filter (fun r => decide (r.status = .success))).length

/-- Count of status-error results. -/
def countFailed (rs : List FileResult) : Nat :=
  (rs.filter (fun r => decide (r.status = .error))).length

/-- Modelled from the spec (§4.2): `dispatch(requests[N], concurrency_limit)`
fails fast with `BatchSizeError` when `N == 0` or `N > 20` — before any
upstream call; the error value does not depend on `call`.  Otherwise every
request is processed, each outcome wrapped by `toFileResult`, the results
re-sorted by index, and the counts derived from the result set.  The
concurrency bound affects scheduling only, never the returned value, so it is
not a parameter of the value-level model.  The dispatcher code is missing from
the source tree. -/
def dispatch (call : AnalysisRequest → Except AnalysisError AnalysisResult)
    (inputs : List AnalysisInput) : Except BatchSizeError BatchResponse :=
  if inputs.length = 0 ∨ MAX_FILES < inputs.length then
    .error (.invalidSize inputs.length)
  else
    .ok { results := dispatchResults call inputs
          total := (dispatchResults call inputs).length
          successful := countSuccess (dispatchResults call inputs)
          failed := countFailed (dispatchResults call inputs) }

/- ===================================================================
   AnalysisClient retry loop, modelled from the spec (§4.1)
   =================================================================== -/

/-- Modelled from the spec (§4.1, §6): outcome of one upstream attempt.
`transient` is the 429/503-equivalent signal; `fatal` any other upstream
failure.  The client code is missing from the source tree. -/
inductive UpstreamOutcome where
  | ok (r : AnalysisResult)
  | transient (message : String)
  | fatal (message : String)
deriving DecidableEq, Repr

/-- Modelled from the spec (§4.1): up to 3 attempts total. -/
def MAX_ATTEMPTS : Nat := 3

/-- Modelled from the spec (§4.1): backoff slept after the (k+1)-th failed
attempt, in seconds — base 1 s, factor 2 (1 s, 2 s, 4 s, ...). -/
def backoffSeconds (k : Nat) : Nat := 2 ^ k

/-- Trace of one `analyze` call: total upstream attempts made, the backoff
sleeps performed between attempts (in order, seconds), and the final outcome. -/
structure RetryTrace where
  attempts : Nat
  backoffs : List Nat
  outcome : Except AnalysisError AnalysisResult
deriving Repr

/-- Modelled from the spec (§4.1): the retry loop from 0-based attempt number
`k`.  A transient failure with attempts remaining sleeps `backoffSeconds k` and
retries; after the `MAX_ATTEMPTS`-th failed attempt `TransientError` is
surfaced with no further attempt; a fatal failure or a success ends the loop at
once.  The client code is missing from the source tree. -/
def analyzeFrom (upstream : Nat → UpstreamOutcome) (k : Nat) : RetryTrace :=
  match upstream k with
  | .ok r => { attempts := k + 1, backoffs := [], outcome := .ok r }
  | .fatal m => { attempts := k + 1, backoffs := [], outcome := .error (.serviceError m) }
  | .transient m =>
    if k + 1 < MAX_ATTEMPTS then
      let t := analyzeFrom upstream (k + 1)
      { attempts := t.attempts
        backoffs := backoffSeconds k :: t.backoffs
        outcome := t.outcome }
    else
      { attempts := k + 1, backoffs := [], outcome := .error (.transient m) }
termination_by MAX_ATTEMPTS - k
decreasing_by simp_wf; omega

/-- Modelled from the spec (§4.1): one `AnalysisClient.analyze` call starts at
attempt 0. -/
def analyze (upstream : Nat → UpstreamOutcome) : RetryTrace :=
  analyzeFrom upstream 0

/- ===================================================================
   CallbackDelivery, modelled from the spec (§4.4)
   =================================================================== -/

/-- Modelled from the spec (§3): `WebhookJob.status`. -/
inductive JobStatus where
  | accepted
  | processing
  | completed
  | partialFailure
  | failed
deriving DecidableEq, Repr

/-- Outcome of the single POST `deliver` makes. -/
inductive PostOutcome where
  | delivered
  | failed (reason : String)
deriving DecidableEq, Repr

/-- Observable effects of one `deliver` call: number of POSTs attempted and the
log lines written. -/
structure DeliveryEffect where
  postsAttempted : Nat
  log : List String
deriving DecidableEq, Repr

/-- Modelled from the spec (§4.4): `deliver(payload, callback_url)` attempts
exactly one POST (`post` is that single attempt's outcome); on failure it logs
the job id and failure reason; it performs no retry and returns the job's
status unchanged.  The delivery code is missing from the source tree. -/
def deliver (jobId : String) (jobStatus : JobStatus) (post : PostOutcome) :
    DeliveryEffect × JobStatus :=
  match post with
  | .delivered => ({ postsAttempted := 1, log := [] }, jobStatus)
  | .failed reason =>
    ({ postsAttempted := 1
       log := ["callback delivery failed for job " ++ jobId ++ ": " ++ reason] },
     jobStatus)

/- ===================================================================
   Concrete example values used by witnesses and example conjuncts
   =================================================================== -/

/-- A concrete successful analysis result. -/
def okResultA : AnalysisResult := .image "d" ["k"] "c"

/-- A concrete always-raised error for the "broken" file of the spec §8 scenario. -/
def brokenError : AnalysisError := .serviceError "broken"

/-- The `[ok, ok, broken]` batch of the spec §8 scenario: three image inputs. -/
def okOkBrokenInputs : List AnalysisInput :=
  [⟨[0], "image/jpeg", .image⟩, ⟨[1], "image/jpeg", .image⟩, ⟨[2], "image/jpeg", .image⟩]

/-- A collaborator that succeeds on indices 0 and 1 and raises on index 2. -/
def brokenExampleCall (req : AnalysisRequest) : Except AnalysisError AnalysisResult :=
  if req.index = 2 then .error brokenError else .ok okResultA

/-- An upstream mock that fails transiently twice, then succeeds. -/
def failTwiceUpstream : Nat → UpstreamOutcome := fun k =>
  if k = 0 then .transient "rate limited"
  else if k = 1 then .transient "rate limited"
  else .ok okResultA

/-- A concrete tracked file at input index 0 (no error, no metadata yet). -/
def pfA : ProcessingFile :=
  ⟨"file-1", "a.jpg", .image, 10, .processing, none, none, none, 0, none⟩

/-- A concrete tracked file at input index 1 (no error, no metadata yet). -/
def pfB : ProcessingFile :=
  ⟨"file-2", "b.jpg", .image, 11, .processing, none, none, none, 1, none⟩

/-- A concrete metadata payload. -/
def exampleMeta : MetadataResponse := .image "d" ["k"] "c" 5

/-- A concrete successful per-file result for input index 0. -/
def exampleResult0 : FileAnalysisResult :=
  ⟨"a.jpg", 0, .success, .image, some exampleMeta, none⟩

/-- A concrete batch response holding only `exampleResult0`. -/
def exampleResponse : BatchAnalysisResponse := ⟨[exampleResult0], 1, 1, 0, 5⟩

/- ===================================================================
   Helper lemmas (shared)
   =================================================================== -/

/-- Every result is either success or error, so the two derived counts split
the result list. -/
theorem countSuccess_add_countFailed (rs : List FileResult) :
    countSuccess rs + countFailed rs = rs.length := by
  induction rs with
  | nil => rfl
  | cons r rest ih =>
    unfold countSuccess countFailed at *
    cases h : r.status <;> simp [List.filter_cons, h] <;> omega

/-- The dispatcher-created requests carry positional indices `0..N-1`. -/
theorem mkRequests_map_index (inputs : List AnalysisInput) :
    (mkRequests inputs).map AnalysisRequest.index = List.range inputs.length := by
  unfold mkRequests
  rw [List.map_map]
  have h : (AnalysisRequest.index ∘ fun p : Nat × AnalysisInput =>
      ({ index := p.1, payload := p.2.payload, declared_mime := p.2.declared_mime,
         kind := p.2.kind } : AnalysisRequest)) = Prod.fst := rfl
  rw [h]
  simp

/-- Wrapping preserves the request's index. -/
theorem toFileResult_index (req : AnalysisRequest)
    (out : Except AnalysisError AnalysisResult) :
    (toFileResult req out).index = req.index := by
  cases out <;> rfl

/-- The per-request outcomes, before re-sorting, carry indices `0..N-1`. -/
theorem unsorted_results_map_index
    (call : AnalysisRequest → Except AnalysisError AnalysisResult)
    (inputs : List AnalysisInput) :
    ((mkRequests inputs).map (fun req => toFileResult req (call req))).map
      FileResult.index = List.range inputs.length := by
  rw [List.map_map]
  have h : (FileResult.index ∘ fun req => toFileResult req (call req))
      = AnalysisRequest.index := by
    funext req
    exact toFileResult_index req (call req)
  rw [h, mkRequests_map_index]

/-- Two permuted lists, each sorted by a duplicate-free natural key, are equal. -/
theorem eq_of_perm_sorted_nodup_key {α : Type} (key : α → Nat) {l₁ l₂ : List α}
    (hp : l₁.Perm l₂)
    (hs₁ : l₁.Pairwise (fun a b => key a ≤ key b))
    (hs₂ : l₂.Pairwise (fun a b => key a ≤ key b))
    (hnd : (l₁.map key).Nodup) : l₁ = l₂ := by
  have hnd₂ : (l₂.map key).Nodup := ((hp.map key).nodup_iff).mp hnd
  have hne₁ : l₁.Pairwise (fun a b => key a ≠ key b) := List.pairwise_map.mp hnd
  have hne₂ : l₂.Pairwise (fun a b => key a ≠ key b) := List.pairwise_map.mp hnd₂
  have h₁ : l₁.Pairwise (fun a b => key a < key b) :=
    (hs₁.and hne₁).imp (fun h => lt_of_le_of_ne h.1 h.2)
  have h₂ : l₂.Pairwise (fun a b => key a < key b) :=
    (hs₂.and hne₂).imp (fun h => lt_of_le_of_ne h.1 h.2)
  haveI : IsAntisymm α (fun a b => key a < key b) :=
    ⟨fun _ _ h1 h2 => absurd (lt_trans h1 h2) (lt_irrefl _)⟩
  exact List.eq_of_perm_of_sorted hp h₁ h₂

/-- `sortByIndex` output is sorted by index. -/
theorem sortByIndex_pairwise (rs : List FileResult) :
    (sortByIndex rs).Pairwise (fun a b => a.index ≤ b.index) := by
  haveI : IsTotal FileResult (fun a b => a.index ≤ b.index) :=
    ⟨fun a b => Nat.le_total _ _⟩
  haveI : IsTrans FileResult (fun a b => a.index ≤ b.index) :=
    ⟨fun _ _ _ h1 h2 => le_trans h1 h2⟩
  exact List.sorted_insertionSort _ rs

/-- `sortByIndex` permutes its input. -/
theorem sortByIndex_perm (rs : List FileResult) : (sortByIndex rs).Perm rs :=
  List.perm_insertionSort _ rs

/-- On a valid batch size, `dispatch` returns the response built from
`dispatchResults`. -/
theorem dispatch_eq_ok
    (call : AnalysisRequest → Except AnalysisError AnalysisResult)
    (inputs : List AnalysisInput)
    (h : ¬(inputs.length = 0 ∨ MAX_FILES < inputs.length)) :
    dispatch call inputs = .ok
      { results := dispatchResults call inputs
        total := (dispatchResults call inputs).length
        successful := countSuccess (dispatchResults call inputs)
        failed := countFailed (dispatchResults call inputs) } := by
  unfold dispatch
  rw [if_neg h]

/-- The per-request outcomes are already in index order, so the re-sort is the
identity and the collected results equal the in-order per-request outcomes. -/
theorem dispatchResults_eq
    (call : AnalysisRequest → Except AnalysisError AnalysisResult)
    (inputs : List AnalysisInput) :
    dispatchResults call inputs
      = (mkRequests inputs).map (fun req => toFileResult req (call req)) := by
  unfold dispatchResults sortByIndex
  apply List.Sorted.insertionSort_eq
  have hkeys := unsorted_results_map_index call inputs
  have hp : (List.range inputs.length).Pairwise (· < ·) := List.pairwise_lt_range _
  rw [← hkeys] at hp
  exact (List.pairwise_map.mp hp).imp (fun h => le_of_lt h)

/-- A dispatch over N inputs yields N results. -/
theorem dispatchResults_length
    (call : AnalysisRequest → Except AnalysisError AnalysisResult)
    (inputs : List AnalysisInput) :
    (dispatchResults call inputs).length = inputs.length := by
  rw [dispatchResults_eq]
  simp [mkRequests]

/-- The returned results carry indices `0..N-1` in order. -/
theorem dispatchResults_map_index
    (call : AnalysisRequest → Except AnalysisError AnalysisResult)
    (inputs : List AnalysisInput) :
    (dispatchResults call inputs).map FileResult.index
      = List.range inputs.length := by
  rw [dispatchResults_eq]
  exact unsorted_results_map_index call inputs

/-- Collapsing skips an ordinary (non-quote) character. -/
theorem csvCollapse_cons_of_ne (c : Char) (xs : List Char) (h : ¬ c = dquote) :
    csvCollapseQuotes (c :: xs) = c :: csvCollapseQuotes xs := by
  cases xs with
  | nil => rfl
  | cons y ys => simp [csvCollapseQuotes, h]

/-- Collapsing doubled quotes undoes doubling. -/
theorem csvCollapse_doubleQuotes (s : List Char) :
    csvCollapseQuotes (csvDoubleQuotes s) = s := by
  induction s with
  | nil => rfl
  | cons c rest ih =>
    by_cases h : c = dquote
    · subst h
      simp [csvDoubleQuotes, csvCollapseQuotes, ih]
    · rw [csvDoubleQuotes, if_neg h, csvCollapse_cons_of_ne c _ h, ih]

/- ===================================================================
   Claim theorems
   =================================================================== -/

/-- C10: `validateFile` rejects a file iff its MIME type is outside the accepted
set, or it is an image type larger than 10 MB; a file with an accepted non-image
(audio) MIME type passes at every byte size — the size bound is never applied to
audio. -/
theorem validateFile_rejects_iff (f : WebFile) :
    (validateFile f ≠ none ↔
      (¬ ACCEPTED_TYPES.contains f.type = true ∨
        (IMAGE_TYPES.contains f.type = true ∧ MAX_IMAGE_SIZE_BYTES < f.size))) ∧
    (ACCEPTED_TYPES.contains f.type = true → ¬ IMAGE_TYPES.contains f.type = true →
      validateFile f = none) := by
  unfold validateFile
  constructor
  · split
    · simp_all
    · split <;> simp_all
  · intro hacc himg
    simp_all

/-- Witness for C10 at a concrete audio file far beyond 10 MB. -/
theorem validateFile_rejects_iff_witness :
    validateFile ⟨"a.mp3", "audio/mpeg", 999999999999⟩ = none :=
  (validateFile_rejects_iff ⟨"a.mp3", "audio/mpeg", 999999999999⟩).2
    (by decide) (by decide)

/-- C6: `deliver` attempts exactly one POST for a completed job; on delivery
failure it logs the job id and failure reason, performs no retry (the attempt
count is one in every case), and leaves the job's status unchanged. -/
theorem callbackDelivery_single_attempt (jobId : String) (st : JobStatus)
    (post : PostOutcome) :
    (deliver jobId st post).1.postsAttempted = 1 ∧
    (deliver jobId st post).2 = st ∧
    (∀ reason, post = .failed reason →
      (deliver jobId st post).1.log =
        ["callback delivery failed for job " ++ jobId ++ ": " ++ reason]) := by
  cases post <;> simp [deliver]

/-- Witness for C6 at a concrete failed delivery of a completed job. -/
theorem callbackDelivery_single_attempt_witness :
    (deliver "job-1" JobStatus.completed (PostOutcome.failed "timeout")).1.log =
      ["callback delivery failed for job " ++ "job-1" ++ ": " ++ "timeout"] :=
  (callbackDelivery_single_attempt "job-1" .completed (.failed "timeout")).2.2
    "timeout" rfl

/-- C8 counterexample: on a non-ok response with an empty status text and an
unstructured body, the client's message is the fixed fallback text, not the
(empty) status text — refuting "with the status text as message" as stated. -/
theorem request_empty_statusText_counterexample :
    request (.response ⟨500, "", .plain "x"⟩) =
      .err ⟨"HTTP_500", "An unexpected error occurred"⟩ ∧
    "An unexpected error occurred" ≠ "" := by
  constructor
  · rfl
  · decide

/-- C8 (amended): the API client never throws — `request` (hence `get`, `post`,
`put`, `del`) and `uploadFile` are total functions into the `ApiResult` union:
a rejected fetch yields `NETWORK_ERROR`; an ok (2xx) JSON response yields
`ok data` (a 2xx body whose JSON parse throws is caught as `NETWORK_ERROR`);
a non-ok response with a structured `{error_code, message}` body yields that
error; a non-ok response with any other body yields `HTTP_<status>` with the
status text as message when it is non-empty, else the fallback message
`'An unexpected error occurred'`. -/
theorem apiClient_total_result (outcome : FetchOutcome) :
    uploadFile outcome = request outcome ∧
    (∀ m, outcome = .rejected m →
      request outcome = .err ⟨"NETWORK_ERROR", m⟩) ∧
    (∀ r, outcome = .response r → respOk r = true →
      (∀ e, r.body = .structured e → request outcome = .ok (.structuredError e)) ∧
      (∀ v, r.body = .plain v → request outcome = .ok (.other v)) ∧
      (∀ m, r.body = .notJson m → request outcome = .err ⟨"NETWORK_ERROR", m⟩)) ∧
    (∀ r, outcome = .response r → respOk r = false →
      (∀ e, r.body = .structured e → request outcome = .err e) ∧
      ((∀ e, ¬ r.body = .structured e) →
        request outcome = .err ⟨"HTTP_" ++ toString r.status,
          if r.statusText = "" then "An unexpected error occurred"
          else r.statusText⟩)) := by
  refine ⟨by cases outcome <;> rfl, ?_, ?_, ?_⟩
  · intro m hm
    subst hm
    rfl
  · intro r hr hok
    subst hr
    refine ⟨?_, ?_, ?_⟩ <;> intro x hx <;> simp [request, hok, hx]
  · intro r hr hok
    subst hr
    constructor
    · intro e he
      simp [request, hok, parseError, he]
    · intro hns
      cases hb : r.body with
      | notJson m => simp [request, hok, parseError, hb]
      | structured e => exact absurd hb (hns e)
      | plain v => simp [request, hok, parseError, hb]

/-- Witness for C8 (amended) at a concrete rejected fetch. -/
theorem apiClient_total_result_witness :
    request (.rejected "conn refused") = .err ⟨"NETWORK_ERROR", "conn refused"⟩ :=
  (apiClient_total_result (.rejected "conn refused")).2.1 "conn refused" rfl

/-- C9: CSV escaping round-trips — `csvEscape` returns the value unchanged when
it holds no comma, double quote, newline or carriage return, otherwise wraps it
in double quotes with each interior quote doubled; RFC 4180 decoding of the
escaped cell recovers exactly the original value. -/
theorem csvEscape_roundtrip (s : List Char) :
    rfc4180DecodeCell (csvEscape s) = s ∧
    (csvNeedsQuote s = false → csvEscape s = s) ∧
    (csvNeedsQuote s = true →
      csvEscape s = dquote :: csvDoubleQuotes s ++ [dquote]) := by
  refine ⟨?_, ?_, ?_⟩
  · by_cases h : csvNeedsQuote s = true
    · rw [csvEscape, if_pos h, rfc4180DecodeCell, if_pos ?hcond]
      case hcond =>
        refine ⟨by simp, rfl, ?_⟩
        show ((dquote :: csvDoubleQuotes s) ++ [dquote]).getLast? = some dquote
        exact List.getLast?_concat _
      · rw [List.drop_one, List.cons_append, List.tail_cons, List.dropLast_concat,
          csvCollapse_doubleQuotes]
    · have hq : csvNeedsQuote s = false := by
        cases hcq : csvNeedsQuote s
        · rfl
        · exact absurd hcq h
      rw [csvEscape, if_neg h, rfc4180DecodeCell, if_neg ?_]
      rintro ⟨hlen, hhead, hlast⟩
      cases hs : s with
      | nil => rw [hs] at hlen; simp at hlen
      | cons c cs =>
        rw [hs] at hhead
        simp at hhead
        rw [hs, hhead] at hq
        simp [csvNeedsQuote, List.contains_cons] at hq
  · intro h
    rw [csvEscape, if_neg (by simp [h])]
  · intro h
    rw [csvEscape, if_pos h]

/-- Witness for C9 at a concrete value with and a concrete value without
special characters. -/
theorem csvEscape_roundtrip_witness :
    rfc4180DecodeCell (csvEscape ("a,b".toList)) = "a,b".toList ∧
    csvEscape ("ab".toList) = "ab".toList :=
  ⟨(csvEscape_roundtrip ("a,b".toList)).1,
   (csvEscape_roundtrip ("ab".toList)).2.1 (by decide)⟩

/-- C5: for every successful dispatch of N requests (1 ≤ N ≤ 20), the response
holds exactly N results whose indices are `0..N-1` each exactly once (no
duplicates or gaps), and the derived counts satisfy successful + failed = N. -/
theorem dispatch_response_invariants
    (call : AnalysisRequest → Except AnalysisError AnalysisResult)
    (inputs : List AnalysisInput)
    (h1 : 1 ≤ inputs.length) (h2 : inputs.length ≤ MAX_FILES) :
    ∃ resp, dispatch call inputs = .ok resp ∧
      resp.results.length = inputs.length ∧
      resp.results.map FileResult.index = List.range inputs.length ∧
      resp.successful + resp.failed = inputs.length := by
  have hnot : ¬(inputs.length = 0 ∨ MAX_FILES < inputs.length) := by omega
  refine ⟨_, dispatch_eq_ok call inputs hnot, ?_, ?_, ?_⟩
  · exact dispatchResults_length call inputs
  · exact dispatchResults_map_index call inputs
  · rw [countSuccess_add_countFailed]
    exact dispatchResults_length call inputs

/-- Witness for C5 at the concrete three-file batch. -/
theorem dispatch_response_invariants_witness :
    ∃ resp, dispatch brokenExampleCall okOkBrokenInputs = .ok resp ∧
      resp.results.length = okOkBrokenInputs.length ∧
      resp.results.map FileResult.index = List.range okOkBrokenInputs.length ∧
      resp.successful + resp.failed = okOkBrokenInputs.length :=
  dispatch_response_invariants brokenExampleCall okOkBrokenInputs
    (by decide) (by decide)

/-- C4: per-file failures are isolated — any exception from one file's call
becomes a status-error FileResult for that file only, and the response always
contains one wrapped outcome per input in input order, so siblings are never
aborted, cancelled or blocked; for the concrete batch [ok, ok, broken] the
response has successful = 2, failed = 1, indices 0 and 1 succeed and index 2
is an error. -/
theorem dispatch_isolates_failures :
    (∀ (call : AnalysisRequest → Except AnalysisError AnalysisResult)
        (inputs : List AnalysisInput),
        1 ≤ inputs.length → inputs.length ≤ MAX_FILES →
        ∃ resp, dispatch call inputs = .ok resp ∧
          resp.results
            = (mkRequests inputs).map (fun req => toFileResult req (call req)) ∧
          (∀ req e, call req = .error e →
            toFileResult req (call req)
              = ⟨req.index, .error, req.kind, none, some e⟩) ∧
          (∀ req r, call req = .ok r →
            toFileResult req (call req)
              = ⟨req.index, .success, req.kind, some r, none⟩)) ∧
    (∃ resp, dispatch brokenExampleCall okOkBrokenInputs = .ok resp ∧
      resp.successful = 2 ∧ resp.failed = 1 ∧
      resp.results.map (fun r => (r.index, r.status)) =
        [(0, FileStatus.success), (1, .success), (2, .error)]) := by
  constructor
  · intro call inputs h1 h2
    have hnot : ¬(inputs.length = 0 ∨ MAX_FILES < inputs.length) := by omega
    refine ⟨_, dispatch_eq_ok call inputs hnot, dispatchResults_eq call inputs,
      ?_, ?_⟩
    · intro req e he
      simp [toFileResult, he]
    · intro req r hr
      simp [toFileResult, hr]
  · refine ⟨_, dispatch_eq_ok brokenExampleCall okOkBrokenInputs (by decide),
      ?_, ?_, ?_⟩ <;> decide

/-- Witness for C4 instantiating the universal part at the concrete batch. -/
theorem dispatch_isolates_failures_witness :
    ∃ resp, dispatch brokenExampleCall okOkBrokenInputs = .ok resp ∧
      resp.results = (mkRequests okOkBrokenInputs).map
        (fun req => toFileResult req (brokenExampleCall req)) ∧
      (∀ req e, brokenExampleCall req = .error e →
        toFileResult req (brokenExampleCall req)
          = ⟨req.index, .error, req.kind, none, some e⟩) ∧
      (∀ req r, brokenExampleCall req = .ok r →
        toFileResult req (brokenExampleCall req)
          = ⟨req.index, .success, req.kind, some r, none⟩) :=
  dispatch_isolates_failures.1 brokenExampleCall okOkBrokenInputs
    (by decide) (by decide)

/-- C1: a batch of 0 or more than 20 files is rejected with a structural
BatchSizeError — uniformly in the collaborator, hence before any upstream
call — while every valid size (1..20) dispatches; in the frontend, `addFiles`
refuses to grow the selection past 20 files (leaving the previous selection
unchanged), the selection size stays bounded by 20, and `handleUpload` submits
only a non-empty batch of at most 20 valid files. -/
theorem batch_size_bounds :
    (∀ (call : AnalysisRequest → Except AnalysisError AnalysisResult)
        (inputs : List AnalysisInput),
        inputs.length = 0 ∨ MAX_FILES < inputs.length →
        dispatch call inputs = .error (.invalidSize inputs.length)) ∧
    (∀ (call : AnalysisRequest → Except AnalysisError AnalysisResult)
        (inputs : List AnalysisInput),
        1 ≤ inputs.length → inputs.length ≤ MAX_FILES →
        ∃ resp, dispatch call inputs = .ok resp) ∧
    (∀ (counter : Nat) (prev : List SelectedFile) (incoming : List WebFile),
        MAX_FILES < prev.length + incoming.length →
        (addFiles counter prev incoming).1 = prev) ∧
    (∀ (counter : Nat) (prev : List SelectedFile) (incoming : List WebFile),
        prev.length ≤ MAX_FILES →
        (addFiles counter prev incoming).1.length ≤ MAX_FILES) ∧
    (∀ (files : List SelectedFile) (uploading : Bool) (batch : List SelectedFile),
        files.length ≤ MAX_FILES →
        handleUpload files uploading = some batch →
        1 ≤ batch.length ∧ batch.length ≤ MAX_FILES) := by
  refine ⟨?_, ?_, ?_, ?_, ?_⟩
  · intro call inputs h
    unfold dispatch
    rw [if_pos h]
  · intro call inputs h1 h2
    exact ⟨_, dispatch_eq_ok call inputs (by omega)⟩
  · intro counter prev incoming h
    simp [addFiles, h]
  · intro counter prev incoming h
    by_cases hc : MAX_FILES < prev.length + incoming.length
    · simp [addFiles, hc, h]
    · simp [addFiles, hc]
      omega
  · intro files uploading batch hlen hsub
    unfold handleUpload at hsub
    split at hsub
    · next hc =>
      injection hsub with hsubeq
      subst hsubeq
      simp [canUpload] at hc
      have h2 : (validFiles files).length ≤ files.length :=
        List.length_filter_le _ _
      exact ⟨hc.1, le_trans h2 hlen⟩
    · exact Option.noConfusion hsub

/-- Witness for C1: the empty batch is rejected for every collaborator. -/
theorem batch_size_bounds_witness :
    dispatch (fun _ => Except.error brokenError) ([] : List AnalysisInput)
      = .error (.invalidSize 0) :=
  batch_size_bounds.1 (fun _ => Except.error brokenError) [] (Or.inl rfl)

/-- C2: TileGrid's rendered order is reconstructed solely from each entry's
stored fileIndex: for every list of entries with distinct indices and any
permutation of it, the rendered sequence is the same list, sorted ascending by
fileIndex and a permutation of the entries — collection order never leaks into
the output. -/
theorem tileGrid_sorts_by_fileIndex (l l' : List ProcessingFile)
    (hperm : l.Perm l') (hnodup : (l.map ProcessingFile.fileIndex).Nodup) :
    tileGridOrder l' = tileGridOrder l ∧
    (tileGridOrder l').Pairwise (fun a b => a.fileIndex ≤ b.fileIndex) ∧
    (tileGridOrder l').Perm l := by
  haveI : IsTotal ProcessingFile (fun a b => a.fileIndex ≤ b.fileIndex) :=
    ⟨fun a b => Nat.le_total _ _⟩
  haveI : IsTrans ProcessingFile (fun a b => a.fileIndex ≤ b.fileIndex) :=
    ⟨fun _ _ _ h1 h2 => le_trans h1 h2⟩
  have hs' : (tileGridOrder l').Pairwise (fun a b => a.fileIndex ≤ b.fileIndex) :=
    List.sorted_insertionSort _ l'
  have hs : (tileGridOrder l).Pairwise (fun a b => a.fileIndex ≤ b.fileIndex) :=
    List.sorted_insertionSort _ l
  have hp' : (tileGridOrder l').Perm l :=
    (List.perm_insertionSort _ l').trans hperm.symm
  have hp : (tileGridOrder l).Perm l := List.perm_insertionSort _ l
  have hnd : ((tileGridOrder l').map ProcessingFile.fileIndex).Nodup :=
    ((hp'.map ProcessingFile.fileIndex).nodup_iff).mpr hnodup
  exact ⟨eq_of_perm_sorted_nodup_key ProcessingFile.fileIndex
    (hp'.trans hp.symm) hs' hs hnd, hs', hp'⟩

/-- Witness for C2 at a concrete two-element permutation. -/
theorem tileGrid_sorts_by_fileIndex_witness :
    tileGridOrder [pfB, pfA] = tileGridOrder [pfA, pfB] ∧
    (tileGridOrder [pfB, pfA]).Pairwise (fun a b => a.fileIndex ≤ b.fileIndex) ∧
    (tileGridOrder [pfB, pfA]).Perm [pfA, pfB] :=
  tileGrid_sorts_by_fileIndex [pfA, pfB] [pfB, pfA]
    (List.Perm.swap pfB pfA []) (by decide)

/-- Equation for `handleResultsEntry` when no result matches. -/
theorem handleResultsEntry_none (response : BatchAnalysisResponse)
    (pf : ProcessingFile)
    (hf : response.results.find? (fun q => q.file_index == pf.fileIndex) = none) :
    handleResultsEntry response pf =
      { pf with status := .error, error := some "Kein Ergebnis erhalten" } := by
  simp [handleResultsEntry, hf]

/-- Equation for `handleResultsEntry` on a matching success result. -/
theorem handleResultsEntry_success (response : BatchAnalysisResponse)
    (pf : ProcessingFile) (result : FileAnalysisResult)
    (hf : response.results.find? (fun q => q.file_index == pf.fileIndex)
      = some result)
    (hrs : result.status = .success) :
    handleResultsEntry response pf =
      { pf with
        status := .success
        metadata := result.metadata
        fileType := result.file_type
        processingTimeMs := result.metadata.map MetadataResponse.processingTime } := by
  simp [handleResultsEntry, hf, hrs]

/-- Equation for `handleResultsEntry` on a matching error result. -/
theorem handleResultsEntry_error (response : BatchAnalysisResponse)
    (pf : ProcessingFile) (result : FileAnalysisResult)
    (hf : response.results.find? (fun q => q.file_index == pf.fileIndex)
      = some result)
    (hrs : result.status = .error) :
    handleResultsEntry response pf =
      { pf with
        status := .error
        error := some ((result.error.map BatchErrorDetail.detail).getD
          "Verarbeitung fehlgeschlagen")
        fileType := result.file_type } := by
  simp [handleResultsEntry, hf, hrs]

/-- C7: after `handleResults` every tracked file (clean, as created by
`handleUploadStart`: no error, no metadata) leaves the processing state — a file
whose fileIndex matches a success result gets status success with that result's
metadata and no error, a file matching an error result gets status error with a
non-null message, a file with no matching result gets status error with the
fixed message; no file ends with both metadata and an error set. -/
theorem handleResults_resolves_every_file
    (response : BatchAnalysisResponse) (prev : List ProcessingFile)
    (hclean : ∀ pf ∈ prev, pf.error = none ∧ pf.metadata = none) :
    handleResults response prev = prev.map (handleResultsEntry response) ∧
    ∀ pf ∈ prev,
      ((handleResultsEntry response pf).status = .success ∨
        (handleResultsEntry response pf).status = .error) ∧
      (∀ r, response.results.find? (fun q => q.file_index == pf.fileIndex) = some r →
        (r.status = .success →
          (handleResultsEntry response pf).status = .success ∧
          (handleResultsEntry response pf).metadata = r.metadata ∧
          (handleResultsEntry response pf).error = none) ∧
        (r.status = .error →
          (handleResultsEntry response pf).status = .error ∧
          ∃ msg, (handleResultsEntry response pf).error = some msg)) ∧
      (response.results.find? (fun q => q.file_index == pf.fileIndex) = none →
        (handleResultsEntry response pf).status = .error ∧
        (handleResultsEntry response pf).error = some "Kein Ergebnis erhalten") ∧
      ¬((handleResultsEntry response pf).metadata ≠ none ∧
        (handleResultsEntry response pf).error ≠ none) := by
  refine ⟨rfl, ?_⟩
  intro pf hm
  obtain ⟨herr, hmeta⟩ := hclean pf hm
  cases hf : response.results.find? (fun q => q.file_index == pf.fileIndex) with
  | none =>
    rw [handleResultsEntry_none response pf hf]
    refine ⟨Or.inr rfl, ?_, fun _ => ⟨rfl, rfl⟩, fun h => h.1 hmeta⟩
    intro r hr
    exact Option.noConfusion hr
  | some result =>
    cases hrs : result.status with
    | success =>
      rw [handleResultsEntry_success response pf result hf hrs]
      refine ⟨Or.inl rfl, ?_, ?_, fun h => h.2 herr⟩
      · intro r hr
        injection hr with hr'
        subst hr'
        constructor
        · intro _
          exact ⟨rfl, rfl, herr⟩
        · intro hse
          rw [hrs] at hse
          exact FileStatus.noConfusion hse
      · intro h
        exact Option.noConfusion h
    | error =>
      rw [handleResultsEntry_error response pf result hf hrs]
      refine ⟨Or.inr rfl, ?_, ?_, fun h => h.1 hmeta⟩
      · intro r hr
        injection hr with hr'
        subst hr'
        constructor
        · intro hss
          rw [hrs] at hss
          exact FileStatus.noConfusion hss
        · intro _
          exact ⟨rfl, _, rfl⟩
      · intro h
        exact Option.noConfusion h

/-- Witness for C7 at a concrete one-file response matching a clean tracked
file. -/
theorem handleResults_resolves_every_file_witness :
    ((handleResultsEntry exampleResponse pfA).status = .success ∨
      (handleResultsEntry exampleResponse pfA).status = .error) ∧
    (handleResultsEntry exampleResponse pfA).status = .success ∧
    (handleResultsEntry exampleResponse pfA).metadata = some exampleMeta ∧
    (handleResultsEntry exampleResponse pfA).error = none := by
  have h := handleResults_resolves_every_file exampleResponse [pfA]
    (by intro pf hpf; rw [List.mem_singleton] at hpf; subst hpf; exact ⟨rfl, rfl⟩)
  have h2 := h.2 pfA (List.mem_singleton.mpr rfl)
  have hfind : exampleResponse.results.find?
      (fun q => q.file_index == pfA.fileIndex) = some exampleResult0 := rfl
  have h3 := (h2.2.1 exampleResult0 hfind).1 rfl
  exact ⟨h2.1, h3.1, h3.2.1, h3.2.2⟩

/-- Single-step equation: success at attempt `k` ends the loop. -/
theorem analyzeFrom_ok (u : Nat → UpstreamOutcome) (k : Nat) (r : AnalysisResult)
    (h : u k = .ok r) :
    analyzeFrom u k = ⟨k + 1, [], .ok r⟩ := by
  rw [analyzeFrom, h]

/-- Single-step equation: a fatal failure at attempt `k` ends the loop at once. -/
theorem analyzeFrom_fatal (u : Nat → UpstreamOutcome) (k : Nat) (m : String)
    (h : u k = .fatal m) :
    analyzeFrom u k = ⟨k + 1, [], .error (.serviceError m)⟩ := by
  rw [analyzeFrom, h]

/-- Single-step equation: a transient failure with attempts remaining sleeps
`backoffSeconds k` and retries. -/
theorem analyzeFrom_transient_retry (u : Nat → UpstreamOutcome) (k : Nat)
    (m : String) (h : u k = .transient m) (hk : k + 1 < MAX_ATTEMPTS) :
    analyzeFrom u k = ⟨(analyzeFrom u (k + 1)).attempts,
      backoffSeconds k :: (analyzeFrom u (k + 1)).backoffs,
      (analyzeFrom u (k + 1)).outcome⟩ := by
  rw [analyzeFrom, h]
  simp [hk]

/-- Single-step equation: a transient failure on the last allowed attempt
surfaces `TransientError` with no further attempt. -/
theorem analyzeFrom_transient_last (u : Nat → UpstreamOutcome) (k : Nat)
    (m : String) (h : u k = .transient m) (hk : ¬ k + 1 < MAX_ATTEMPTS) :
    analyzeFrom u k = ⟨k + 1, [], .error (.transient m)⟩ := by
  rw [analyzeFrom, h]
  simp [hk]

/-- C3: the retry policy makes at most 3 attempts total against the upstream;
the recorded backoffs follow the exponential policy `2^k` seconds (1 s, then
2 s, then 4 s — with 3 attempts at most the 1 s and 2 s waits occur); an
upstream failing transiently on all 3 attempts surfaces TransientError after
exactly 3 attempts with no 4th; an upstream failing twice then succeeding
yields success after exactly 2 retries with backoffs of 1 s then 2 s. -/
theorem analysisClient_retry_policy (upstream : Nat → UpstreamOutcome) :
    (analyze upstream).attempts ≤ MAX_ATTEMPTS ∧
    (analyze upstream).backoffs =
      (List.range (analyze upstream).backoffs.length).map backoffSeconds ∧
    ((∀ k, k < MAX_ATTEMPTS → ∃ m, upstream k = .transient m) →
      (analyze upstream).attempts = MAX_ATTEMPTS ∧
      ∃ m, (analyze upstream).outcome = .error (.transient m)) ∧
    (∀ r m0 m1, upstream 0 = .transient m0 → upstream 1 = .transient m1 →
      upstream 2 = .ok r →
      analyze upstream = ⟨3, [1, 2], .ok r⟩) := by
  rcases h0 : upstream 0 with r0 | m0 | m0
  case ok =>
    have e : analyze upstream = ⟨1, [], .ok r0⟩ := analyzeFrom_ok upstream 0 r0 h0
    rw [e]
    refine ⟨by norm_num [MAX_ATTEMPTS], by norm_num [List.range_succ, backoffSeconds], ?_, ?_⟩
    · intro hall
      obtain ⟨m, hm⟩ := hall 0 (by decide)
      rw [h0] at hm
      exact UpstreamOutcome.noConfusion hm
    · intro r m0 m1 hu0 _ _
      exact UpstreamOutcome.noConfusion hu0
  case fatal =>
    have e : analyze upstream = ⟨1, [], .error (.serviceError m0)⟩ :=
      analyzeFrom_fatal upstream 0 m0 h0
    rw [e]
    refine ⟨by norm_num [MAX_ATTEMPTS], by norm_num [List.range_succ, backoffSeconds], ?_, ?_⟩
    · intro hall
      obtain ⟨m, hm⟩ := hall 0 (by decide)
      rw [h0] at hm
      exact UpstreamOutcome.noConfusion hm
    · intro r m0' m1' hu0 _ _
      exact UpstreamOutcome.noConfusion hu0
  case transient =>
    have e0 : analyze upstream = ⟨(analyzeFrom upstream 1).attempts,
        1 :: (analyzeFrom upstream 1).backoffs, (analyzeFrom upstream 1).outcome⟩ :=
      analyzeFrom_transient_retry upstream 0 m0 h0 (by decide)
    rcases h1 : upstream 1 with r1 | m1 | m1
    case ok =>
      have e1 := analyzeFrom_ok upstream 1 r1 h1
      rw [e0, e1]
      refine ⟨by norm_num [MAX_ATTEMPTS], by norm_num [List.range_succ, backoffSeconds], ?_, ?_⟩
      · intro hall
        obtain ⟨m, hm⟩ := hall 1 (by decide)
        rw [h1] at hm
        exact UpstreamOutcome.noConfusion hm
      · intro r m0' m1' _ hu1 _
        exact UpstreamOutcome.noConfusion hu1
    case fatal =>
      have e1 := analyzeFrom_fatal upstream 1 m1 h1
      rw [e0, e1]
      refine ⟨by norm_num [MAX_ATTEMPTS], by norm_num [List.range_succ, backoffSeconds], ?_, ?_⟩
      · intro hall
        obtain ⟨m, hm⟩ := hall 1 (by decide)
        rw [h1] at hm
        exact UpstreamOutcome.noConfusion hm
      · intro r m0' m1' _ hu1 _
        exact UpstreamOutcome.noConfusion hu1
    case transient =>
      have e1 : analyzeFrom upstream 1 = ⟨(analyzeFrom upstream 2).attempts,
          2 :: (analyzeFrom upstream 2).backoffs, (analyzeFrom upstream 2).outcome⟩ :=
        analyzeFrom_transient_retry upstream 1 m1 h1 (by decide)
      rcases h2 : upstream 2 with r2 | m2 | m2
      case ok =>
        have e2 := analyzeFrom_ok upstream 2 r2 h2
        rw [e0, e1, e2]
        refine ⟨by norm_num [MAX_ATTEMPTS], by norm_num [List.range_succ, backoffSeconds], ?_, ?_⟩
        · intro hall
          obtain ⟨m, hm⟩ := hall 2 (by decide)
          rw [h2] at hm
          exact UpstreamOutcome.noConfusion hm
        · intro r m0' m1' _ _ hu2
          injection hu2 with hr
          subst hr
          rfl
      case fatal =>
        have e2 := analyzeFrom_fatal upstream 2 m2 h2
        rw [e0, e1, e2]
        refine ⟨by norm_num [MAX_ATTEMPTS], by norm_num [List.range_succ, backoffSeconds], ?_, ?_⟩
        · intro hall
          obtain ⟨m, hm⟩ := hall 2 (by decide)
          rw [h2] at hm
          exact UpstreamOutcome.noConfusion hm
        · intro r m0' m1' _ _ hu2
          exact UpstreamOutcome.noConfusion hu2
      case transient =>
        have e2 : analyzeFrom upstream 2 = ⟨3, [], .error (.transient m2)⟩ :=
          analyzeFrom_transient_last upstream 2 m2 h2 (by decide)
        rw [e0, e1, e2]
        refine ⟨by norm_num [MAX_ATTEMPTS], by norm_num [List.range_succ, backoffSeconds], ?_, ?_⟩
        · intro _
          exact ⟨rfl, m2, rfl⟩
        · intro r m0' m1' _ _ hu2
          exact UpstreamOutcome.noConfusion hu2

/-- Witness for C3: the fail-twice-then-succeed mock reaches success after
exactly 2 retries with backoffs of 1 s then 2 s. -/
theorem analysisClient_retry_policy_witness :
    analyze failTwiceUpstream = ⟨3, [1, 2], .ok okResultA⟩ :=
  (analysisClient_retry_policy failTwiceUpstream).2.2.2 okResultA
    "rate limited" "rate limited" rfl rfl rfl
